import Mathlib

/-!
Shallow embedding of the MapServerMCP repository: the tool dispatcher
(src/agent_tools.py, `execute_tool`), the orchestration loop
(src/agent.py, `MapAgent.chat` / `MapAgent.reset_conversation`), the
routing-profile selection of the core map server
(src/servers/core_map_server.py, `CoreMapServer.get_route`), and the
history server analytics
(src/servers/history_map_server.py, `get_frequent_places` and
`summarize_travel_stats`).

Modelling conventions:
* Python JSON values are the inductive `Json`; Python floats are modelled
  as exact rationals (no claim depends on float rounding or float repr).
* Python `dict` values are association lists with unique keys;
  `d[k]` is `getItem` (raising `KeyError` when absent, in the `Except`
  monad) and `d.get(k, v)` is `pyGet`.
* Python exceptions that can cross the boundaries relevant to the claims
  are the inductive `PyExn`; a function that can raise returns
  `Except PyExn _`.
* The three backend servers perform external HTTP I/O; for dispatcher
  claims they are abstracted as an oracle `handlers : HandlerCall → Json`
  recording exactly which handler is invoked with which (already
  defaulted) arguments.  The history server, which is pure over its
  loaded trip data, is embedded directly.
* The OpenAI completion endpoint is an oracle
  `endpoint : String → List Turn → Except PyExn ModelResponse`
  (system prompt, conversation history ↦ assistant message or a raised
  transport error), and `json.loads` on a tool-call argument string is an
  oracle `parse : String → Except PyExn (List (String × Json))`.
-/

/-- A JSON value as produced by `json.loads` / consumed by `json.dumps`.
Numbers are exact rationals. -/
inductive Json where
  | null
  | bool (b : Bool)
  | num (q : Rat)
  | str (s : String)
  | arr (xs : List Json)
  | obj (kvs : List (String × Json))

/-- The Python exceptions that can cross the component boundaries the
claims are about. -/
inductive PyExn where
  /-- `KeyError(key)` from a `d[key]` subscript on a dict missing `key`. -/
  | keyError (key : String)
  /-- `json.JSONDecodeError` raised by `json.loads` on a malformed payload. -/
  | jsonDecodeError (msg : String)
  /-- A network/auth/quota exception raised by the OpenAI client call. -/
  | apiError (msg : String)
deriving DecidableEq

/-- First-match association-list lookup (Python dicts are modelled as
association lists with unique keys). -/
def lookupA {α : Type} (m : List (String × α)) (k : String) : Option α :=
  match m with
  | [] => none
  | (k1, v) :: rest => if k1 = k then some v else lookupA rest k

/-- Python `d[k]` on a dict: the value, or a raised `KeyError k`. -/
def getItem (args : List (String × Json)) (k : String) : Except PyExn Json :=
  match lookupA args k with
  | some v => Except.ok v
  | none => Except.error (PyExn.keyError k)

/-- Python `d.get(k, default)` on a dict: never raises. -/
def pyGet (args : List (String × Json)) (k : String) (default : Json) : Json :=
  match lookupA args k with
  | some v => v
  | none => default

/-- Python `s1 <= s2` on strings, lexicographic by code point, as a
computable Boolean on the underlying character lists. -/
def charListLe : List Char → List Char → Bool
  | [], _ => true
  | _ :: _, [] => false
  | a :: as, b :: bs => if a < b then true else if b < a then false else charListLe as bs

/-- Python `a <= b` on strings. -/
def pyStrLe (a b : String) : Bool := charListLe a.data b.data

/-- Python `s.lower()` (ASCII case folding suffices for every string the
code compares after lowering). -/
def pyLower (s : String) : String := String.mk (s.data.map Char.toLower)

/-- JSON string quoting for `json.dumps` (escapes the quote and backslash
characters; no claim inspects the rendering of exotic characters). -/
def jsonQuote (s : String) : String :=
  "\"" ++ String.mk (s.data.foldr (fun c acc =>
    if c = '"' then '\\' :: '"' :: acc
    else if c = '\\' then '\\' :: '\\' :: acc
    else c :: acc) []) ++ "\""

mutual

/-- Python `json.dumps` with its default separators.  Numeric rendering
abstracts Python float repr; no claim inspects serialized numbers. -/
def dumps : Json → String
  | Json.null => "null"
  | Json.bool b => cond b "true" "false"
  | Json.num q => toString q
  | Json.str s => jsonQuote s
  | Json.arr xs => "[" ++ dumpsList xs ++ "]"
  | Json.obj kvs => "\x7b" ++ dumpsKVs kvs ++ "\x7d"

/-- Comma-separated rendering of a JSON array body. -/
def dumpsList : List Json → String
  | [] => ""
  | [x] => dumps x
  | x :: y :: rest => dumps x ++ ", " ++ dumpsList (y :: rest)

/-- Comma-separated rendering of a JSON object body. -/
def dumpsKVs : List (String × Json) → String
  | [] => ""
  | [(k, v)] => jsonQuote k ++ ": " ++ dumps v
  | (k, v) :: kv :: rest => jsonQuote k ++ ": " ++ dumps v ++ ", " ++ dumpsKVs (kv :: rest)

end

/-- One backend handler invocation: which server method `execute_tool`
routes to, with the argument values it passes (defaults already applied).
The handlers perform external HTTP I/O, so their results are supplied by
an oracle `HandlerCall → Json`. -/
inductive HandlerCall where
  | geocode (query : Json)
  | reverse_geocode (latitude longitude : Json)
  | search_poi (latitude longitude radius category key : Json)
  | get_place_details (place_id : Json)
  | get_route (origin_lat origin_lon dest_lat dest_lon mode : Json)
  | get_frequent_places (start_date end_date min_visits : Json)
  | summarize_travel_stats (start_date end_date : Json)
  | get_typical_route (origin_label destination_label time_of_day : Json)
  | get_current_weather (latitude longitude include_forecast : Json)
  | get_air_quality (latitude longitude : Json)
  | get_astronomy_data (latitude longitude date : Json)

/-- The names of the eleven registered tools: the `TOOLS` catalog entries
of src/agent_tools.py, which coincide with the branches of
`execute_tool`. -/
def registeredToolNames : List String :=
  ["geocode", "reverse_geocode", "search_poi", "get_place_details", "get_route",
   "get_frequent_places", "summarize_travel_stats", "get_typical_route",
   "get_current_weather", "get_air_quality", "get_astronomy_data"]

/-- src/agent_tools.py `execute_tool(tool_name, arguments)`: routes the
tool name to the matching server method.  Required arguments are read
with `arguments[k]` (which raises `KeyError` when absent — there is no
try/except in the source), optional arguments with `arguments.get(k,
default)`.  An unknown name returns the failure envelope directly. -/
def execute_tool (handlers : HandlerCall → Json) (tool_name : String)
    (arguments : List (String × Json)) : Except PyExn Json :=
  match tool_name with
  | "geocode" => do
      let query ← getItem arguments "query"
      pure (handlers (HandlerCall.geocode query))
  | "reverse_geocode" => do
      let lat ← getItem arguments "latitude"
      let lon ← getItem arguments "longitude"
      pure (handlers (HandlerCall.reverse_geocode lat lon))
  | "search_poi" => do
      let lat ← getItem arguments "latitude"
      let lon ← getItem arguments "longitude"
      pure (handlers (HandlerCall.search_poi lat lon
        (pyGet arguments "radius" (Json.num 1000))
        (pyGet arguments "category" (Json.str "amenity"))
        (pyGet arguments "key" Json.null)))
  | "get_place_details" => do
      let pid ← getItem arguments "place_id"
      pure (handlers (HandlerCall.get_place_details pid))
  | "get_route" => do
      let olat ← getItem arguments "origin_lat"
      let olon ← getItem arguments "origin_lon"
      let dlat ← getItem arguments "dest_lat"
      let dlon ← getItem arguments "dest_lon"
      pure (handlers (HandlerCall.get_route olat olon dlat dlon
        (pyGet arguments "mode" (Json.str "driving"))))
  | "get_frequent_places" =>
      pure (handlers (HandlerCall.get_frequent_places
        (pyGet arguments "start_date" Json.null)
        (pyGet arguments "end_date" Json.null)
        (pyGet arguments "min_visits" (Json.num 3))))
  | "summarize_travel_stats" =>
      pure (handlers (HandlerCall.summarize_travel_stats
        (pyGet arguments "start_date" Json.null)
        (pyGet arguments "end_date" Json.null)))
  | "get_typical_route" => do
      let ol ← getItem arguments "origin_label"
      let dl ← getItem arguments "destination_label"
      pure (handlers (HandlerCall.get_typical_route ol dl
        (pyGet arguments "time_of_day" Json.null)))
  | "get_current_weather" => do
      let lat ← getItem arguments "latitude"
      let lon ← getItem arguments "longitude"
      pure (handlers (HandlerCall.get_current_weather lat lon
        (pyGet arguments "include_forecast" (Json.bool false))))
  | "get_air_quality" => do
      let lat ← getItem arguments "latitude"
      let lon ← getItem arguments "longitude"
      pure (handlers (HandlerCall.get_air_quality lat lon))
  | "get_astronomy_data" => do
      let lat ← getItem arguments "latitude"
      let lon ← getItem arguments "longitude"
      pure (handlers (HandlerCall.get_astronomy_data lat lon
        (pyGet arguments "date" Json.null)))
  | _ =>
      pure (Json.obj [("success", Json.bool false),
                      ("error", Json.str ("Unknown tool: " ++ tool_name))])

/-- src/servers/core_map_server.py `CoreMapServer.get_route`: the local
`mode_map` dict mapping transport modes to OSRM profiles. -/
def mode_map : List (String × String) :=
  [("driving", "car"), ("walking", "foot"), ("cycling", "bike"),
   ("car", "car"), ("foot", "foot"), ("bike", "bike")]

/-- src/servers/core_map_server.py `CoreMapServer.get_route`:
`profile = mode_map.get(mode.lower(), "car")` — the OSRM profile chosen
for a given `mode` argument. -/
def route_profile (mode : String) : String :=
  match lookupA mode_map (pyLower mode) with
  | some p => p
  | none => "car"

/-- One tool call of an assistant message (OpenAI `tool_calls[i]`):
`id`, `function.name`, and the raw JSON argument string
`function.arguments`. -/
structure ToolCall where
  id : String
  name : String
  arguments : String
deriving DecidableEq

/-- The assistant message of one completion: `response_message.content`
(possibly absent) and `response_message.tool_calls` (`None` and `[]` are
both falsy in the source's `while` test and are merged into `[]`). -/
structure ModelResponse where
  content : Option String
  tool_calls : List ToolCall
deriving DecidableEq

/-- One entry of `MapAgent.conversation_history`.  The source stores
dicts; the four shapes it appends are the four constructors. -/
inductive Turn where
  /-- `{"role": "user", "content": ...}` -/
  | user (content : String)
  /-- `{"role": "assistant", "content": ..., "tool_calls": [...]}` -/
  | assistantToolCalls (content : Option String) (tool_calls : List ToolCall)
  /-- `{"role": "tool", "tool_call_id": ..., "content": json.dumps(result)}` -/
  | tool (tool_call_id : String) (content : String)
  /-- `{"role": "assistant", "content": ...}` (the final reply) -/
  | assistantFinal (content : String)
deriving DecidableEq

/-- Outcome of one `chat` call: the returned answer, a Python exception
propagating out of `chat`, or fuel exhaustion of the (unbounded in the
source) tool-calling loop. -/
inductive ChatOutcome where
  | ok (answer : String)
  | exn (e : PyExn)
  | fuelOut
deriving DecidableEq

/-- The oracle for `json.loads` applied to a tool-call argument string:
either the decoded argument dict or a raised decode error. -/
def ParseOracle : Type := String → Except PyExn (List (String × Json))

/-- The oracle for `self.client.chat.completions.create(...)`: system
prompt and conversation history to assistant message, or a raised
network/auth/quota error. -/
def EndpointOracle : Type := String → List Turn → Except PyExn ModelResponse

/-- `json.loads(tool_call.function.arguments)` followed by
`execute_tool(function_name, function_args)` — the processing of one tool
request in the loop body of `MapAgent.chat` (src/agent.py lines 62-72). -/
def dispatchOne (handlers : HandlerCall → Json) (parse : ParseOracle)
    (tc : ToolCall) : Except PyExn Json :=
  match parse tc.arguments with
  | Except.error e => Except.error e
  | Except.ok args => execute_tool handlers tc.name args

/-- Boolean success test on `Except`. -/
def isOkE {ε α : Type} : Except ε α → Bool
  | Except.ok _ => true
  | Except.error _ => false

/-- The tool Turn appended for one successfully dispatched request
(src/agent.py lines 78-82); the error branch is never reached under the
hypotheses of the theorems that mention it. -/
def toolTurn (handlers : HandlerCall → Json) (parse : ParseOracle)
    (tc : ToolCall) : Turn :=
  match dispatchOne handlers parse tc with
  | Except.ok r => Turn.tool tc.id (dumps r)
  | Except.error _ => Turn.tool tc.id ""

/-- The `for tool_call in response_message.tool_calls` loop of
`MapAgent.chat` (src/agent.py lines 62-82): process the requests in
order, appending one tool Turn per dispatched request; a raised exception
(malformed payload or missing required key) aborts the loop, leaving the
Turns appended so far. -/
def runToolCalls (handlers : HandlerCall → Json) (parse : ParseOracle)
    (history : List Turn) : List ToolCall → Option PyExn × List Turn
  | [] => (none, history)
  | tc :: rest =>
    match dispatchOne handlers parse tc with
    | Except.error e => (some e, history)
    | Except.ok r =>
      runToolCalls handlers parse (history ++ [Turn.tool tc.id (dumps r)]) rest

/-- The fixed fallback answer of src/agent.py line 92. -/
def fallbackMessage : String := "I apologize, but I couldn't generate a response."

/-- Python `response_message.content or fallback`: `None` and the empty
string are both falsy and select the fallback. -/
def orFallback : Option String → String
  | none => fallbackMessage
  | some s => if s = "" then fallbackMessage else s

/-- The `while response_message.tool_calls:` loop of `MapAgent.chat`
(src/agent.py lines 43-95), beginning from a received assistant message.
Returns the outcome together with the conversation history as mutated so
far (appends persist even when an exception propagates).  `fuel` bounds
the number of follow-up completion calls; the source loop is unbounded. -/
def chatLoop (sys : String) (endpoint : EndpointOracle) (parse : ParseOracle)
    (handlers : HandlerCall → Json) :
    Nat → List Turn → ModelResponse → ChatOutcome × List Turn
  | fuel, history, rm =>
    match rm.tool_calls with
    | [] =>
      let answer := orFallback rm.content
      (ChatOutcome.ok answer, history ++ [Turn.assistantFinal answer])
    | _ :: _ =>
      let h1 := history ++ [Turn.assistantToolCalls rm.content rm.tool_calls]
      match runToolCalls handlers parse h1 rm.tool_calls with
      | (some e, h2) => (ChatOutcome.exn e, h2)
      | (none, h2) =>
        match fuel with
        | 0 => (ChatOutcome.fuelOut, h2)
        | fuel' + 1 =>
          match endpoint sys h2 with
          | Except.error e => (ChatOutcome.exn e, h2)
          | Except.ok rm2 => chatLoop sys endpoint parse handlers fuel' h2 rm2

/-- src/agent.py `MapAgent.chat(user_message)`: append the user Turn,
make the initial completion call, then run the tool-calling loop.
Returns the outcome and the final conversation history. -/
def chat (sys : String) (endpoint : EndpointOracle) (parse : ParseOracle)
    (handlers : HandlerCall → Json) (fuel : Nat) (history : List Turn)
    (user_message : String) : ChatOutcome × List Turn :=
  let h0 := history ++ [Turn.user user_message]
  match endpoint sys h0 with
  | Except.error e => (ChatOutcome.exn e, h0)
  | Except.ok rm => chatLoop sys endpoint parse handlers fuel h0 rm

/-- src/agent.py `MapAgent` state: the OpenAI client (opaque), the model
name from the environment, the conversation history, and the verbose
flag.  The tool catalog `TOOLS` is a module-level constant, not agent
state. -/
structure MapAgent (Client : Type) where
  client : Client
  model : Option String
  conversation_history : List Turn
  verbose : Bool

/-- src/agent.py `MapAgent.reset_conversation`: sets
`self.conversation_history = []`. -/
def reset_conversation {Client : Type} (a : MapAgent Client) : MapAgent Client :=
  { a with conversation_history := [] }

/-- One endpoint of a trip in data/trip_history.json: coordinates and the
user-set label. -/
structure TripPlace where
  lat : Rat
  lon : Rat
  label : String
deriving DecidableEq

/-- One record of the trip history loaded by
src/servers/history_map_server.py `_load_trip_data`. -/
structure Trip where
  date : String
  origin : TripPlace
  destination : TripPlace
  distance_km : Rat
  duration_minutes : Rat
  mode : String
  hour : Int
deriving DecidableEq

/-- Python `x or alt` for an optional string `x`: `None` and `""` are
falsy and select `alt`. -/
def pyOr (x : Option String) (alt : String) : String :=
  match x with
  | none => alt
  | some s => if s = "" then alt else s

/-- The date-window filter shared by `get_frequent_places` and
`summarize_travel_stats`: `if start_date:` keeps trips with
`t["date"] >= start_date`, then `if end_date:` keeps trips with
`t["date"] <= end_date` (a falsy `None` or `""` skips that filter). -/
def filterByDates (trips : List Trip) (start_date end_date : Option String) :
    List Trip :=
  let f1 := match start_date with
    | none => trips
    | some s => if s = "" then trips else trips.filter (fun t => pyStrLe s t.date)
  match end_date with
  | none => f1
  | some s => if s = "" then f1 else f1.filter (fun t => pyStrLe t.date s)

/-- Update-in-place-or-append on an association list: Python dict
assignment semantics (insertion order preserved). -/
def upsertA {α : Type} (m : List (String × α)) (k : String) (f : Option α → α) :
    List (String × α) :=
  match m with
  | [] => [(k, f none)]
  | (k1, v) :: rest =>
    if k1 = k then (k1, f (some v)) :: rest else (k1, v) :: upsertA rest k f

/-- The dict key `f"{lat},{lon}"` used by `get_frequent_places` to group
visits (the rendering of rationals differs from Python float repr but is
likewise injective, so the grouping is identical). -/
def visitKey (lat lon : Rat) : String := toString lat ++ "," ++ toString lon

/-- One value of the `place_visits` defaultdict of `get_frequent_places`:
visit count, coordinates, and label (each visit overwrites coordinates
and label, so the last visit's label wins for a shared key). -/
structure PlaceAgg where
  count : Nat
  lat : Rat
  lon : Rat
  label : String
deriving DecidableEq

/-- One origin-or-destination visit recorded into `place_visits`
(src/servers/history_map_server.py lines 51-62). -/
def recordVisit (m : List (String × PlaceAgg)) (p : TripPlace) :
    List (String × PlaceAgg) :=
  upsertA m (visitKey p.lat p.lon) (fun prev =>
    match prev with
    | none => ⟨1, p.lat, p.lon, p.label⟩
    | some a => ⟨a.count + 1, p.lat, p.lon, p.label⟩)

/-- The full `place_visits` dict: for each filtered trip, the origin is
counted, then the destination. -/
def place_visits (trips : List Trip) : List (String × PlaceAgg) :=
  trips.foldl (fun m t => recordVisit (recordVisit m t.origin) t.destination) []

/-- One entry of the `frequent_places` list returned by
`get_frequent_places`. -/
structure FrequentPlace where
  label : String
  latitude : Rat
  longitude : Rat
  visit_count : Nat
deriving DecidableEq

/-- The `frequent_places` dict built from one `place_visits` value. -/
def mkFrequentPlace (a : PlaceAgg) : FrequentPlace :=
  ⟨a.label, a.lat, a.lon, a.count⟩

/-- Stable insertion step for a descending sort by a `Nat` key: the new
element goes before the first strictly smaller key, after equal keys. -/
def insertDescBy {α : Type} (key : α → Nat) (x : α) : List α → List α
  | [] => [x]
  | y :: ys => if key y ≤ key x then x :: y :: ys else y :: insertDescBy key x ys

/-- Stable descending sort by a `Nat` key: the semantics of Python
`list.sort(key=..., reverse=True)` (equal keys keep their original
order). -/
def sortDescBy {α : Type} (key : α → Nat) : List α → List α
  | [] => []
  | x :: xs => insertDescBy key x (sortDescBy key xs)

/-- The sorted `frequent_places` list of `get_frequent_places` for a given
trip store, date window, and `min_visits`: values of `place_visits` with
`count >= min_visits`, sorted by visit count descending. -/
def frequent_places_of (trips : List Trip) (start_date end_date : Option String)
    (min_visits : Int) : List FrequentPlace :=
  let filtered := filterByDates trips start_date end_date
  sortDescBy (fun p => p.visit_count)
    ((((place_visits filtered).map Prod.snd).filter
      (fun a => min_visits ≤ (a.count : Int))).map mkFrequentPlace)

/-- The JSON rendering of one `frequent_places` entry. -/
def fpJson (p : FrequentPlace) : Json :=
  Json.obj [("label", Json.str p.label),
            ("latitude", Json.num p.latitude),
            ("longitude", Json.num p.longitude),
            ("visit_count", Json.num p.visit_count)]

/-- src/servers/history_map_server.py
`HistoryMapServer.get_frequent_places(start_date, end_date, min_visits)`.
The `time_window` start is `start_date or filtered_trips[-1]["date"]`
when the filtered list is nonempty, else `None` (and symmetrically with
`filtered_trips[0]` for the end).  The surrounding try/except is
unreachable in this pure embedding (every operation is total). -/
def get_frequent_places (trips : List Trip) (start_date end_date : Option String)
    (min_visits : Int) : Json :=
  let fps := frequent_places_of trips start_date end_date min_visits
  let tw : Json :=
    match filterByDates trips start_date end_date with
    | [] => Json.obj [("start_date", Json.null), ("end_date", Json.null)]
    | t :: ts =>
      Json.obj [("start_date", Json.str (pyOr start_date ((List.getLast (t :: ts) (by simp)).date))),
                ("end_date", Json.str (pyOr end_date t.date))]
  Json.obj [("success", Json.bool true),
            ("time_window", tw),
            ("total_places", Json.num fps.length),
            ("places", Json.arr (fps.map fpJson))]

/-- Python banker's rounding (`round` ties to even) on an exact rational. -/
def roundHalfEven (q : Rat) : Int :=
  let f := ⌊q⌋
  let r := q - f
  if r < 1 / 2 then f
  else if 1 / 2 < r then f + 1
  else if f % 2 = 0 then f else f + 1

/-- Python `round(q, 2)` on an exact rational. -/
def round2 (q : Rat) : Rat := (roundHalfEven (q * 100) : Rat) / 100

/-- One value of the `mode_stats` defaultdict of `summarize_travel_stats`. -/
structure ModeStat where
  trips : Nat
  distance_km : Rat
  time_minutes : Rat
deriving DecidableEq

/-- `mode_stats` accumulation over the filtered trips
(src/servers/history_map_server.py lines 125-130). -/
def mode_stats (trips : List Trip) : List (String × ModeStat) :=
  trips.foldl (fun m t =>
    upsertA m t.mode (fun prev =>
      match prev with
      | none => ⟨1, t.distance_km, t.duration_minutes⟩
      | some s => ⟨s.trips + 1, s.distance_km + t.distance_km,
                   s.time_minutes + t.duration_minutes⟩)) []

/-- `route_counts` accumulation keyed by
`f"{origin label} → {destination label}"` (lines 133-136). -/
def route_counts (trips : List Trip) : List (String × Nat) :=
  trips.foldl (fun m t =>
    upsertA m (t.origin.label ++ " → " ++ t.destination.label) (fun prev =>
      match prev with
      | none => 1
      | some n => n + 1)) []

/-- src/servers/history_map_server.py
`HistoryMapServer.summarize_travel_stats(start_date, end_date)`: an empty
filtered window returns the fixed failure envelope before any statistics
are computed; otherwise the aggregate success envelope.  The surrounding
try/except is unreachable in this pure embedding. -/
def summarize_travel_stats (trips : List Trip)
    (start_date end_date : Option String) : Json :=
  match filterByDates trips start_date end_date with
  | [] =>
    Json.obj [("success", Json.bool false),
              ("error", Json.str "No trips found in specified time window")]
  | t :: ts =>
    let filtered := t :: ts
    let total_trips : Nat := filtered.length
    let total_distance : Rat := (filtered.map Trip.distance_km).sum
    let total_time : Rat := (filtered.map Trip.duration_minutes).sum
    let top_routes := (sortDescBy (fun r => r.2) (route_counts filtered)).take 5
    Json.obj [("success", Json.bool true),
      ("time_window", Json.obj
        [("start_date", Json.str (pyOr start_date ((List.getLast (t :: ts) (by simp)).date))),
         ("end_date", Json.str (pyOr end_date t.date))]),
      ("summary", Json.obj
        [("total_trips", Json.num total_trips),
         ("total_distance_km", Json.num (round2 total_distance)),
         ("total_time_hours", Json.num (round2 (total_time / 60))),
         ("avg_trip_distance_km", Json.num (round2 (total_distance / total_trips))),
         ("avg_trip_duration_minutes", Json.num (round2 (total_time / total_trips)))]),
      ("by_mode", Json.obj ((mode_stats filtered).map (fun ms =>
        (ms.1, Json.obj [("trips", Json.num ms.2.trips),
                         ("distance_km", Json.num ms.2.distance_km),
                         ("time_minutes", Json.num ms.2.time_minutes)])))),
      ("top_routes", Json.arr (top_routes.map (fun r =>
        Json.obj [("route", Json.str r.1), ("trip_count", Json.num r.2)])))]

/-- Recognizer for tool Turns in a conversation log. -/
def isToolTurn : Turn → Bool
  | Turn.tool _ _ => true
  | _ => false

/-- Recognizer for the normal-answer outcome of `chat`. -/
def outcomeIsOk : ChatOutcome → Bool
  | ChatOutcome.ok _ => true
  | _ => false

/-- A concrete handler oracle for witnesses and counterexamples. -/
def handlers0 : HandlerCall → Json := fun _ => Json.obj []

/-- A concrete argument parser that decodes every payload to the empty
dict. -/
def parse0 : ParseOracle := fun _ => Except.ok []

/-- A concrete argument parser that raises a decode error on the payload
`"BAD"` and decodes everything else to the empty dict. -/
def parseSel : ParseOracle := fun s =>
  if s = "BAD" then Except.error (PyExn.jsonDecodeError "Expecting value")
  else Except.ok []

/-- A concrete endpoint that always answers `"done"` with no tool
requests. -/
def endpointDone : EndpointOracle := fun _ _ =>
  Except.ok ⟨some "done", []⟩

/-- A concrete endpoint that always raises a transport error. -/
def endpointFail : EndpointOracle := fun _ _ =>
  Except.error (PyExn.apiError "Connection error")

/-- A concrete endpoint that requests two tools (the second with the
malformed payload `"BAD"`) on the first round and answers `"done"`
afterwards. -/
def endpointTwoCalls : EndpointOracle := fun _ history =>
  match history with
  | [Turn.user _] =>
    Except.ok ⟨none, [⟨"call_1", "frobnicate", "ok"⟩, ⟨"call_2", "teleport", "BAD"⟩]⟩
  | _ => Except.ok ⟨some "done", []⟩

theorem runToolCalls_all_ok (handlers : HandlerCall → Json) (parse : ParseOracle) :
    ∀ (tcs : List ToolCall) (history : List Turn),
    (∀ tc ∈ tcs, isOkE (dispatchOne handlers parse tc) = true) →
    runToolCalls handlers parse history tcs =
      (none, history ++ tcs.map (toolTurn handlers parse)) := by
  intro tcs
  induction tcs with
  | nil => intro history _; simp [runToolCalls]
  | cons tc rest ih =>
    intro history h
    have htc := h tc (List.mem_cons_self tc rest)
    have hrest := fun tc1 h1 => h tc1 (List.mem_cons_of_mem tc h1)
    cases hd : dispatchOne handlers parse tc with
    | error e => rw [hd] at htc; simp [isOkE] at htc
    | ok r =>
      simp only [runToolCalls, hd]
      rw [ih (history ++ [Turn.tool tc.id (dumps r)]) hrest]
      simp [toolTurn, hd]

theorem runToolCalls_abort (handlers : HandlerCall → Json) (parse : ParseOracle)
    (tc : ToolCall) (e : PyExn) :
    ∀ (pre post : List ToolCall) (history : List Turn),
    (∀ tc1 ∈ pre, isOkE (dispatchOne handlers parse tc1) = true) →
    dispatchOne handlers parse tc = Except.error e →
    runToolCalls handlers parse history (pre ++ tc :: post) =
      (some e, history ++ pre.map (toolTurn handlers parse)) := by
  intro pre
  induction pre with
  | nil =>
    intro post history _ he
    simp only [List.nil_append, runToolCalls, he]
    simp
  | cons tc1 rest ih =>
    intro post history h he
    have htc1 := h tc1 (List.mem_cons_self tc1 rest)
    have hrest := fun tcx hx => h tcx (List.mem_cons_of_mem tc1 hx)
    rw [List.cons_append]
    cases hd : dispatchOne handlers parse tc1 with
    | error e1 => rw [hd] at htc1; simp [isOkE] at htc1
    | ok r =>
      simp only [runToolCalls, hd]
      rw [ih post (history ++ [Turn.tool tc1.id (dumps r)]) hrest he]
      simp [toolTurn, hd]

theorem mem_insertDescBy {α : Type} (key : α → Nat) (x a : α) :
    ∀ (l : List α), a ∈ insertDescBy key x l ↔ a = x ∨ a ∈ l := by
  intro l
  induction l with
  | nil => simp [insertDescBy]
  | cons y ys ih =>
    unfold insertDescBy
    by_cases hc : key y ≤ key x
    · simp [hc]
    · simp only [if_neg hc, List.mem_cons, ih]
      tauto

theorem mem_sortDescBy {α : Type} (key : α → Nat) (a : α) :
    ∀ (l : List α), a ∈ sortDescBy key l ↔ a ∈ l := by
  intro l
  induction l with
  | nil => simp [sortDescBy]
  | cons x xs ih =>
    unfold sortDescBy
    rw [mem_insertDescBy, ih]
    simp

/-- Claim C2, counterexample: dispatching `geocode` with an argument
mapping missing the required key `query` does not return a
`ResultEnvelope` — `execute_tool` raises `KeyError("query")` past its
boundary (src/agent_tools.py line 298 has no surrounding try/except). -/
theorem claim_C2_counterexample :
    execute_tool handlers0 "geocode" [] = Except.error (PyExn.keyError "query") := rfl

/-- Claim C2, amended: for a registered tool, a required key missing from
the raw argument mapping makes `execute_tool` raise a `KeyError` that
propagates to the orchestration loop (shown for `query` of `geocode` and
`latitude` of `reverse_geocode`) — it does not surface as a failure
envelope. -/
theorem claim_C2 (handlers : HandlerCall → Json) (arguments : List (String × Json)) :
    (lookupA arguments "query" = none →
      execute_tool handlers "geocode" arguments =
        Except.error (PyExn.keyError "query")) ∧
    (lookupA arguments "latitude" = none →
      execute_tool handlers "reverse_geocode" arguments =
        Except.error (PyExn.keyError "latitude")) := by
  constructor
  · intro h
    simp [execute_tool, getItem, h, Bind.bind, Except.bind]
  · intro h
    simp [execute_tool, getItem, h, Bind.bind, Except.bind]

/-- Witness for the amended claim C2 at the empty argument mapping. -/
theorem claim_C2_witness :
    lookupA ([] : List (String × Json)) "query" = none ∧
    lookupA ([] : List (String × Json)) "latitude" = none ∧
    execute_tool handlers0 "geocode" [] = Except.error (PyExn.keyError "query") ∧
    execute_tool handlers0 "reverse_geocode" [] = Except.error (PyExn.keyError "latitude") :=
  ⟨rfl, rfl, (claim_C2 handlers0 []).1 rfl, (claim_C2 handlers0 []).2 rfl⟩

/-- Claim C4, counterexample: with an endpoint that raises, `chat` on an
empty prior history leaves the history as `[user "hi"]`, not deeply equal
to the pre-call history `[]` — the user Turn appended at src/agent.py
line 33 survives the failed round. -/
theorem claim_C4_counterexample :
    chat "" endpointFail parse0 handlers0 5 [] "hi" =
      (ChatOutcome.exn (PyExn.apiError "Connection error"), [Turn.user "hi"]) ∧
    [Turn.user "hi"] ≠ ([] : List Turn) :=
  ⟨rfl, by decide⟩

/-- Claim C4, amended: if the model endpoint raises on the round's first
submission, the exception propagates out of `chat` (an error outcome
distinct from a normal answer) and the conversation history equals the
prior history with exactly the user Turn appended — no assistant or tool
Turn from the failed round, but also not the pre-call history. -/
theorem claim_C4 (sys : String) (endpoint : EndpointOracle) (parse : ParseOracle)
    (handlers : HandlerCall → Json) (fuel : Nat) (history : List Turn)
    (user_message : String) (e : PyExn)
    (h : endpoint sys (history ++ [Turn.user user_message]) = Except.error e) :
    chat sys endpoint parse handlers fuel history user_message =
      (ChatOutcome.exn e, history ++ [Turn.user user_message]) := by
  simp only [chat, h]

/-- Witness for the amended claim C4 at a concrete failing endpoint. -/
theorem claim_C4_witness :
    endpointFail "" ([] ++ [Turn.user "hi"]) =
      Except.error (PyExn.apiError "Connection error") ∧
    chat "" endpointFail parse0 handlers0 5 [] "hi" =
      (ChatOutcome.exn (PyExn.apiError "Connection error"), [] ++ [Turn.user "hi"]) :=
  ⟨rfl, claim_C4 "" endpointFail parse0 handlers0 5 [] "hi"
    (PyExn.apiError "Connection error") rfl⟩

/-- Claim C5 (confirmed): when the first reply carries zero tool
requests, `chat` terminates after that single round, appending exactly
the user Turn and one final assistant Turn, and returns the reply's
content verbatim — or the fixed fallback string when the content is
`None` or empty. -/
theorem claim_C5 (sys : String) (endpoint : EndpointOracle) (parse : ParseOracle)
    (handlers : HandlerCall → Json) (fuel : Nat) (history : List Turn)
    (user_message : String) (rm : ModelResponse)
    (h : endpoint sys (history ++ [Turn.user user_message]) = Except.ok rm)
    (hz : rm.tool_calls = []) :
    (chat sys endpoint parse handlers fuel history user_message =
      (ChatOutcome.ok (orFallback rm.content),
       history ++ [Turn.user user_message,
                   Turn.assistantFinal (orFallback rm.content)])) ∧
    (∀ s : String, rm.content = some s → s ≠ "" → orFallback rm.content = s) ∧
    (rm.content = none ∨ rm.content = some "" →
      orFallback rm.content = fallbackMessage) := by
  refine ⟨?_, ?_, ?_⟩
  · simp only [chat, h, chatLoop, hz]
    simp
  · intro s hs hne
    simp [orFallback, hs, hne]
  · intro hcase
    rcases hcase with hc | hc <;> simp [orFallback, hc]

/-- Witness for claim C5 at a concrete endpoint answering with text and
no tool requests. -/
theorem claim_C5_witness :
    endpointDone "" ([] ++ [Turn.user "hi"]) =
      Except.ok (ModelResponse.mk (some "done") []) ∧
    (ModelResponse.mk (some "done") []).tool_calls = [] ∧
    chat "" endpointDone parse0 handlers0 5 [] "hi" =
      (ChatOutcome.ok (orFallback (some "done")),
       [] ++ [Turn.user "hi", Turn.assistantFinal (orFallback (some "done"))]) :=
  ⟨rfl, rfl,
   (claim_C5 "" endpointDone parse0 handlers0 5 [] "hi"
     (ModelResponse.mk (some "done") []) rfl rfl).1⟩

/-- Claim C6 (confirmed): dispatching any name outside the eleven
registered tool names returns exactly the failure envelope
`{success: false, error: "Unknown tool: <name>"}` and raises nothing. -/
theorem claim_C6 (handlers : HandlerCall → Json) (arguments : List (String × Json))
    (name : String) (h : name ∉ registeredToolNames) :
    execute_tool handlers name arguments =
      Except.ok (Json.obj [("success", Json.bool false),
                           ("error", Json.str ("Unknown tool: " ++ name))]) := by
  simp only [registeredToolNames, List.mem_cons, List.not_mem_nil, or_false] at h
  push_neg at h
  obtain ⟨h1, h2, h3, h4, h5, h6, h7, h8, h9, h10, h11⟩ := h
  unfold execute_tool
  split <;> first | rfl | simp_all

/-- Witness for claim C6 at the unregistered name `"teleport"`. -/
theorem claim_C6_witness :
    "teleport" ∉ registeredToolNames ∧
    execute_tool handlers0 "teleport" [] =
      Except.ok (Json.obj [("success", Json.bool false),
                           ("error", Json.str ("Unknown tool: " ++ "teleport"))]) :=
  ⟨by decide, claim_C6 handlers0 [] "teleport" (by decide)⟩

/-- Claim C7 (confirmed): `reset_conversation` empties the conversation
history (so a subsequent transcript contains no Turn from before the
reset) and leaves the client, the model endpoint configuration, and the
verbose flag unchanged; the tool catalog is a module-level constant
untouched by it. -/
theorem claim_C7 {Client : Type} (a : MapAgent Client) :
    (reset_conversation a).conversation_history = [] ∧
    (∀ t : Turn, t ∉ (reset_conversation a).conversation_history) ∧
    (reset_conversation a).client = a.client ∧
    (reset_conversation a).model = a.model ∧
    (reset_conversation a).verbose = a.verbose := by
  refine ⟨rfl, ?_, rfl, rfl, rfl⟩
  intro t ht
  simp [reset_conversation] at ht

/-- A concrete endpoint that requests one tool with the malformed payload
`"BAD"` on the first round and answers `"done"` afterwards. -/
def endpointOneBad : EndpointOracle := fun _ history =>
  match history with
  | [Turn.user _] => Except.ok ⟨none, [⟨"call_1", "geocode", "BAD"⟩]⟩
  | _ => Except.ok ⟨some "done", []⟩

theorem chatLoop_cons (sys : String) (endpoint : EndpointOracle) (parse : ParseOracle)
    (handlers : HandlerCall → Json) (fuel : Nat) (history : List Turn)
    (c : Option String) (tc : ToolCall) (rest : List ToolCall) :
    chatLoop sys endpoint parse handlers fuel history ⟨c, tc :: rest⟩ =
      match runToolCalls handlers parse
          (history ++ [Turn.assistantToolCalls c (tc :: rest)]) (tc :: rest) with
      | (some e, h2) => (ChatOutcome.exn e, h2)
      | (none, h2) =>
        match fuel with
        | 0 => (ChatOutcome.fuelOut, h2)
        | fuel' + 1 =>
          match endpoint sys h2 with
          | Except.error e => (ChatOutcome.exn e, h2)
          | Except.ok rm2 => chatLoop sys endpoint parse handlers fuel' h2 rm2 := by
  conv_lhs => rw [chatLoop]

/-- Claim C1, counterexample: a round whose assistant reply carries two
tool requests, the second with a malformed payload, appends only one tool
Turn (not one per request) and aborts with the decode exception. -/
theorem claim_C1_counterexample :
    endpointTwoCalls "" [Turn.user "hi"] =
      Except.ok ⟨none, [⟨"call_1", "frobnicate", "ok"⟩, ⟨"call_2", "teleport", "BAD"⟩]⟩ ∧
    ((chat "" endpointTwoCalls parseSel handlers0 5 [] "hi").2.filter isToolTurn).length = 1 ∧
    (chat "" endpointTwoCalls parseSel handlers0 5 [] "hi").1 =
      ChatOutcome.exn (PyExn.jsonDecodeError "Expecting value") := by
  refine ⟨rfl, by decide, by decide⟩

/-- Claim C1, amended: for a model round carrying tool requests, provided
each request's payload decodes and its dispatch returns a result without
raising, the loop appends exactly one tool Turn per request — in the
order the model emitted the requests, each the serialized dispatch result
tagged with that request's id — immediately after the assistant Turn
carrying the requests, and submits exactly that extended log to the next
model round.  (When a dispatch raises, the round aborts: see the
counterexample.) -/
theorem claim_C1 (sys : String) (endpoint : EndpointOracle) (parse : ParseOracle)
    (handlers : HandlerCall → Json) (fuel : Nat) (history : List Turn)
    (rm : ModelResponse)
    (hne : rm.tool_calls ≠ [])
    (hok : ∀ tc ∈ rm.tool_calls, isOkE (dispatchOne handlers parse tc) = true) :
    (chatLoop sys endpoint parse handlers (fuel + 1) history rm =
      match endpoint sys (history ++ Turn.assistantToolCalls rm.content rm.tool_calls ::
          rm.tool_calls.map (toolTurn handlers parse)) with
      | Except.error e =>
        (ChatOutcome.exn e,
         history ++ Turn.assistantToolCalls rm.content rm.tool_calls ::
           rm.tool_calls.map (toolTurn handlers parse))
      | Except.ok rm2 =>
        chatLoop sys endpoint parse handlers fuel
          (history ++ Turn.assistantToolCalls rm.content rm.tool_calls ::
            rm.tool_calls.map (toolTurn handlers parse)) rm2) ∧
    (rm.tool_calls.map (toolTurn handlers parse)).length = rm.tool_calls.length ∧
    (∀ tc ∈ rm.tool_calls, ∃ r : Json, dispatchOne handlers parse tc = Except.ok r ∧
      toolTurn handlers parse tc = Turn.tool tc.id (dumps r)) := by
  refine ⟨?_, by simp, ?_⟩
  · obtain ⟨c, tcs⟩ := rm
    dsimp only at hne hok ⊢
    cases tcs with
    | nil => exact absurd rfl hne
    | cons tc rest =>
      rw [chatLoop_cons]
      rw [runToolCalls_all_ok handlers parse (tc :: rest) _ hok]
      have hx : (history ++ [Turn.assistantToolCalls c (tc :: rest)]) ++
          (tc :: rest).map (toolTurn handlers parse) =
          history ++ Turn.assistantToolCalls c (tc :: rest) ::
            (tc :: rest).map (toolTurn handlers parse) := by
        simp
      rw [hx]
  · intro tc htc
    have hok1 := hok tc htc
    cases hd : dispatchOne handlers parse tc with
    | error e => rw [hd] at hok1; simp [isOkE] at hok1
    | ok r => exact ⟨r, rfl, by simp [toolTurn, hd]⟩

/-- The assistant reply used by the witness for claim C1: two requests
whose dispatches both complete (both names are unregistered, so each
dispatch returns the unknown-tool envelope). -/
def rmTwoOk : ModelResponse :=
  ⟨none, [⟨"id1", "toolA", "a1"⟩, ⟨"id2", "toolB", "a2"⟩]⟩

/-- Witness for the amended claim C1 at a concrete two-request round. -/
theorem claim_C1_witness :
    rmTwoOk.tool_calls ≠ [] ∧
    (∀ tc ∈ rmTwoOk.tool_calls, isOkE (dispatchOne handlers0 parse0 tc) = true) ∧
    ((chatLoop "" endpointDone parse0 handlers0 (0 + 1) [] rmTwoOk =
      match endpointDone "" ([] ++ Turn.assistantToolCalls rmTwoOk.content rmTwoOk.tool_calls ::
          rmTwoOk.tool_calls.map (toolTurn handlers0 parse0)) with
      | Except.error e =>
        (ChatOutcome.exn e,
         [] ++ Turn.assistantToolCalls rmTwoOk.content rmTwoOk.tool_calls ::
           rmTwoOk.tool_calls.map (toolTurn handlers0 parse0))
      | Except.ok rm2 =>
        chatLoop "" endpointDone parse0 handlers0 0
          ([] ++ Turn.assistantToolCalls rmTwoOk.content rmTwoOk.tool_calls ::
            rmTwoOk.tool_calls.map (toolTurn handlers0 parse0)) rm2) ∧
    (rmTwoOk.tool_calls.map (toolTurn handlers0 parse0)).length = rmTwoOk.tool_calls.length ∧
    (∀ tc ∈ rmTwoOk.tool_calls, ∃ r : Json,
      dispatchOne handlers0 parse0 tc = Except.ok r ∧
      toolTurn handlers0 parse0 tc = Turn.tool tc.id (dumps r))) :=
  ⟨by decide, by decide,
   claim_C1 "" endpointDone parse0 handlers0 0 [] rmTwoOk (by decide) (by decide)⟩

/-- Claim C3, counterexample: a request with a malformed payload is fatal
to the conversation turn — `chat` propagates the decode exception, the
log gains no tool Turn at all (no failure envelope), and the loop does
not continue. -/
theorem claim_C3_counterexample :
    chat "" endpointOneBad parseSel handlers0 5 [] "hi" =
      (ChatOutcome.exn (PyExn.jsonDecodeError "Expecting value"),
       [Turn.user "hi", Turn.assistantToolCalls none [⟨"call_1", "geocode", "BAD"⟩]]) ∧
    (chat "" endpointOneBad parseSel handlers0 5 [] "hi").2.filter isToolTurn = [] ∧
    outcomeIsOk (chat "" endpointOneBad parseSel handlers0 5 [] "hi").1 = false := by
  refine ⟨by decide, by decide, by decide⟩

/-- Claim C3, amended: when the round's requests split as
`pre ++ tc :: post` with every request of `pre` dispatching without
raising and `tc`'s payload (or dispatch) raising `e`, the loop appends
the assistant Turn and one tool Turn per request of `pre`, then the
exception `e` propagates out of `chat`: no failure-envelope tool Turn is
appended for `tc` or for the requests after it, and the loop does not
continue to another model round. -/
theorem claim_C3 (sys : String) (endpoint : EndpointOracle) (parse : ParseOracle)
    (handlers : HandlerCall → Json) (fuel : Nat) (history : List Turn)
    (rm : ModelResponse) (pre post : List ToolCall) (tc : ToolCall) (e : PyExn)
    (hsplit : rm.tool_calls = pre ++ tc :: post)
    (hok : ∀ tc1 ∈ pre, isOkE (dispatchOne handlers parse tc1) = true)
    (he : dispatchOne handlers parse tc = Except.error e) :
    chatLoop sys endpoint parse handlers fuel history rm =
      (ChatOutcome.exn e,
       history ++ Turn.assistantToolCalls rm.content rm.tool_calls ::
         pre.map (toolTurn handlers parse)) := by
  obtain ⟨c, tcs⟩ := rm
  dsimp only at hsplit ⊢
  subst hsplit
  cases pre with
  | nil =>
    rw [List.nil_append, chatLoop_cons]
    simp only [runToolCalls, he]
    simp
  | cons p ps =>
    rw [List.cons_append, chatLoop_cons]
    have hr := runToolCalls_abort handlers parse tc e (p :: ps) post
      (history ++ [Turn.assistantToolCalls c (p :: (ps ++ tc :: post))]) hok he
    simp only [List.cons_append] at hr
    rw [hr]
    simp

/-- Witness for the amended claim C3: one successfully dispatched request
followed by one with a malformed payload. -/
theorem claim_C3_witness :
    (ModelResponse.mk none [⟨"id1", "toolA", "ok"⟩, ⟨"id2", "geocode", "BAD"⟩]).tool_calls =
      [⟨"id1", "toolA", "ok"⟩] ++ ⟨"id2", "geocode", "BAD"⟩ :: [] ∧
    (∀ tc1 ∈ [(⟨"id1", "toolA", "ok"⟩ : ToolCall)],
      isOkE (dispatchOne handlers0 parseSel tc1) = true) ∧
    dispatchOne handlers0 parseSel ⟨"id2", "geocode", "BAD"⟩ =
      Except.error (PyExn.jsonDecodeError "Expecting value") ∧
    chatLoop "" endpointDone parseSel handlers0 5 [] 
        (ModelResponse.mk none [⟨"id1", "toolA", "ok"⟩, ⟨"id2", "geocode", "BAD"⟩]) =
      (ChatOutcome.exn (PyExn.jsonDecodeError "Expecting value"),
       [] ++ Turn.assistantToolCalls none
           [⟨"id1", "toolA", "ok"⟩, ⟨"id2", "geocode", "BAD"⟩] ::
         ([(⟨"id1", "toolA", "ok"⟩ : ToolCall)]).map (toolTurn handlers0 parseSel)) :=
  ⟨rfl, by decide, rfl,
   claim_C3 "" endpointDone parseSel handlers0 5 []
     (ModelResponse.mk none [⟨"id1", "toolA", "ok"⟩, ⟨"id2", "geocode", "BAD"⟩])
     [⟨"id1", "toolA", "ok"⟩] [] ⟨"id2", "geocode", "BAD"⟩
     (PyExn.jsonDecodeError "Expecting value") rfl (by decide) rfl⟩

/-- Claim C8 (confirmed): for every registered tool with optional
parameters and every argument mapping that supplies the required keys
but omits the optional ones, `execute_tool` invokes the handler with the
declared schema defaults: `radius=1000`, `category="amenity"`,
`key=None` for `search_poi`; `mode="driving"` for `get_route`;
`min_visits=3` for `get_frequent_places`; `include_forecast=false` for
`get_current_weather`; and `None` for the optional date fields
(`start_date`/`end_date` of the history tools, `date` of
`get_astronomy_data`) as well as for `time_of_day` of
`get_typical_route`. -/
theorem claim_C8 (handlers : HandlerCall → Json) (arguments : List (String × Json)) :
    (∀ lat lon : Json,
      lookupA arguments "latitude" = some lat →
      lookupA arguments "longitude" = some lon →
      lookupA arguments "radius" = none →
      lookupA arguments "category" = none →
      lookupA arguments "key" = none →
      execute_tool handlers "search_poi" arguments =
        Except.ok (handlers (HandlerCall.search_poi lat lon
          (Json.num 1000) (Json.str "amenity") Json.null))) ∧
    (∀ a b c d : Json,
      lookupA arguments "origin_lat" = some a →
      lookupA arguments "origin_lon" = some b →
      lookupA arguments "dest_lat" = some c →
      lookupA arguments "dest_lon" = some d →
      lookupA arguments "mode" = none →
      execute_tool handlers "get_route" arguments =
        Except.ok (handlers (HandlerCall.get_route a b c d (Json.str "driving")))) ∧
    (lookupA arguments "start_date" = none →
      lookupA arguments "end_date" = none →
      lookupA arguments "min_visits" = none →
      execute_tool handlers "get_frequent_places" arguments =
        Except.ok (handlers (HandlerCall.get_frequent_places
          Json.null Json.null (Json.num 3)))) ∧
    (lookupA arguments "start_date" = none →
      lookupA arguments "end_date" = none →
      execute_tool handlers "summarize_travel_stats" arguments =
        Except.ok (handlers (HandlerCall.summarize_travel_stats Json.null Json.null))) ∧
    (∀ lat lon : Json,
      lookupA arguments "latitude" = some lat →
      lookupA arguments "longitude" = some lon →
      lookupA arguments "include_forecast" = none →
      execute_tool handlers "get_current_weather" arguments =
        Except.ok (handlers (HandlerCall.get_current_weather lat lon (Json.bool false)))) ∧
    (∀ ol dl : Json,
      lookupA arguments "origin_label" = some ol →
      lookupA arguments "destination_label" = some dl →
      lookupA arguments "time_of_day" = none →
      execute_tool handlers "get_typical_route" arguments =
        Except.ok (handlers (HandlerCall.get_typical_route ol dl Json.null))) ∧
    (∀ lat lon : Json,
      lookupA arguments "latitude" = some lat →
      lookupA arguments "longitude" = some lon →
      lookupA arguments "date" = none →
      execute_tool handlers "get_astronomy_data" arguments =
        Except.ok (handlers (HandlerCall.get_astronomy_data lat lon Json.null))) := by
  refine ⟨?_, ?_, ?_, ?_, ?_, ?_, ?_⟩ <;>
    intros <;>
    simp_all [execute_tool, getItem, pyGet, Bind.bind, Except.bind, pure, Except.pure]

/-- The argument mapping used by the witness for claim C8: required keys
present, all optional keys omitted. -/
def args8 : List (String × Json) :=
  [("latitude", Json.num 1), ("longitude", Json.num 2),
   ("origin_lat", Json.num 1), ("origin_lon", Json.num 2),
   ("dest_lat", Json.num 3), ("dest_lon", Json.num 4),
   ("origin_label", Json.str "Home"), ("destination_label", Json.str "Office")]

/-- Witness for claim C8 at a concrete argument mapping omitting every
optional key. -/
theorem claim_C8_witness :
    lookupA args8 "radius" = none ∧
    lookupA args8 "mode" = none ∧
    lookupA args8 "min_visits" = none ∧
    lookupA args8 "include_forecast" = none ∧
    lookupA args8 "start_date" = none ∧
    lookupA args8 "date" = none ∧
    execute_tool handlers0 "search_poi" args8 =
      Except.ok (handlers0 (HandlerCall.search_poi (Json.num 1) (Json.num 2)
        (Json.num 1000) (Json.str "amenity") Json.null)) ∧
    execute_tool handlers0 "get_route" args8 =
      Except.ok (handlers0 (HandlerCall.get_route (Json.num 1) (Json.num 2)
        (Json.num 3) (Json.num 4) (Json.str "driving"))) ∧
    execute_tool handlers0 "get_frequent_places" args8 =
      Except.ok (handlers0 (HandlerCall.get_frequent_places
        Json.null Json.null (Json.num 3))) ∧
    execute_tool handlers0 "summarize_travel_stats" args8 =
      Except.ok (handlers0 (HandlerCall.summarize_travel_stats Json.null Json.null)) ∧
    execute_tool handlers0 "get_current_weather" args8 =
      Except.ok (handlers0 (HandlerCall.get_current_weather
        (Json.num 1) (Json.num 2) (Json.bool false))) ∧
    execute_tool handlers0 "get_typical_route" args8 =
      Except.ok (handlers0 (HandlerCall.get_typical_route
        (Json.str "Home") (Json.str "Office") Json.null)) ∧
    execute_tool handlers0 "get_astronomy_data" args8 =
      Except.ok (handlers0 (HandlerCall.get_astronomy_data
        (Json.num 1) (Json.num 2) Json.null)) :=
  ⟨rfl, rfl, rfl, rfl, rfl, rfl,
   (claim_C8 handlers0 args8).1 _ _ rfl rfl rfl rfl rfl,
   (claim_C8 handlers0 args8).2.1 _ _ _ _ rfl rfl rfl rfl rfl,
   (claim_C8 handlers0 args8).2.2.1 rfl rfl rfl,
   (claim_C8 handlers0 args8).2.2.2.1 rfl rfl,
   (claim_C8 handlers0 args8).2.2.2.2.1 _ _ rfl rfl rfl,
   (claim_C8 handlers0 args8).2.2.2.2.2.1 _ _ rfl rfl rfl,
   (claim_C8 handlers0 args8).2.2.2.2.2.2 _ _ rfl rfl rfl⟩

/-- Claim C9 (confirmed): `get_route` chooses its OSRM profile by
lower-casing the mode and looking it up in the six-entry `mode_map`, any
unrecognized mode silently falling back to the `"car"` profile; and the
schema's enum constraint on `mode` is not enforced at dispatch — any
`mode` value (even a non-string) is passed through to the handler
without producing a failure envelope. -/
theorem claim_C9 :
    route_profile "driving" = "car" ∧ route_profile "walking" = "foot" ∧
    route_profile "cycling" = "bike" ∧ route_profile "car" = "car" ∧
    route_profile "foot" = "foot" ∧ route_profile "bike" = "bike" ∧
    route_profile "DRIVING" = "car" ∧
    (∀ mode : String, lookupA mode_map (pyLower mode) = none →
      route_profile mode = "car") ∧
    (∀ (handlers : HandlerCall → Json) (arguments : List (String × Json))
        (a b c d m : Json),
      lookupA arguments "origin_lat" = some a →
      lookupA arguments "origin_lon" = some b →
      lookupA arguments "dest_lat" = some c →
      lookupA arguments "dest_lon" = some d →
      lookupA arguments "mode" = some m →
      execute_tool handlers "get_route" arguments =
        Except.ok (handlers (HandlerCall.get_route a b c d m))) := by
  refine ⟨by decide, by decide, by decide, by decide, by decide, by decide, by decide,
    ?_, ?_⟩
  · intro mode h
    simp [route_profile, h]
  · intro handlers arguments a b c d m h1 h2 h3 h4 h5
    simp_all [execute_tool, getItem, pyGet, Bind.bind, Except.bind, pure, Except.pure]

/-- The argument mapping used by the witness for claim C9: the
out-of-enum mode string `"hovercraft"`. -/
def args9 : List (String × Json) :=
  [("origin_lat", Json.num 1), ("origin_lon", Json.num 2),
   ("dest_lat", Json.num 3), ("dest_lon", Json.num 4),
   ("mode", Json.str "hovercraft")]

/-- Witness for claim C9: the unrecognized mode `"hovercraft"` falls back
to the `"car"` profile and still reaches the handler at dispatch. -/
theorem claim_C9_witness :
    lookupA mode_map (pyLower "hovercraft") = none ∧
    route_profile "hovercraft" = "car" ∧
    lookupA args9 "mode" = some (Json.str "hovercraft") ∧
    execute_tool handlers0 "get_route" args9 =
      Except.ok (handlers0 (HandlerCall.get_route (Json.num 1) (Json.num 2)
        (Json.num 3) (Json.num 4) (Json.str "hovercraft"))) :=
  ⟨by decide,
   claim_C9.2.2.2.2.2.2.2.1 "hovercraft" (by decide),
   rfl,
   claim_C9.2.2.2.2.2.2.2.2 handlers0 args9 _ _ _ _ _ rfl rfl rfl rfl rfl⟩

/-- Claim C10 (confirmed): on a date window matching no trips,
`summarize_travel_stats` returns the fixed failure envelope while
`get_frequent_places` returns a success envelope with `total_places` 0
and an empty `places` list; and `get_frequent_places` includes a place
exactly when its computed visit count is at least `min_visits`. -/
theorem claim_C10 (trips : List Trip) (start_date end_date : Option String)
    (min_visits : Int) :
    (filterByDates trips start_date end_date = [] →
      summarize_travel_stats trips start_date end_date =
        Json.obj [("success", Json.bool false),
                  ("error", Json.str "No trips found in specified time window")] ∧
      get_frequent_places trips start_date end_date min_visits =
        Json.obj [("success", Json.bool true),
                  ("time_window", Json.obj [("start_date", Json.null),
                                            ("end_date", Json.null)]),
                  ("total_places", Json.num 0),
                  ("places", Json.arr [])]) ∧
    (∀ fp : FrequentPlace,
      fp ∈ frequent_places_of trips start_date end_date min_visits ↔
        ∃ a ∈ (place_visits (filterByDates trips start_date end_date)).map Prod.snd,
          min_visits ≤ (a.count : Int) ∧ mkFrequentPlace a = fp) := by
  constructor
  · intro h
    constructor
    · simp [summarize_travel_stats, h]
    · have hf : frequent_places_of trips start_date end_date min_visits = [] := by
        simp [frequent_places_of, h, place_visits, sortDescBy]
      simp [get_frequent_places, h, hf, sortDescBy]
  · intro fp
    rw [frequent_places_of, mem_sortDescBy]
    simp only [List.mem_map, List.mem_filter, decide_eq_true_eq]
    constructor
    · rintro ⟨a, ⟨ha, hcount⟩, heq⟩
      exact ⟨a, ha, hcount, heq⟩
    · rintro ⟨a, ha, hcount, heq⟩
      exact ⟨a, ⟨ha, hcount⟩, heq⟩

/-- Witness for claim C10 at the empty trip store and the all-time
window. -/
theorem claim_C10_witness :
    filterByDates [] none none = [] ∧
    (summarize_travel_stats [] none none =
        Json.obj [("success", Json.bool false),
                  ("error", Json.str "No trips found in specified time window")] ∧
      get_frequent_places [] none none 3 =
        Json.obj [("success", Json.bool true),
                  ("time_window", Json.obj [("start_date", Json.null),
                                            ("end_date", Json.null)]),
                  ("total_places", Json.num 0),
                  ("places", Json.arr [])]) ∧
    ((⟨"Home", 1, 2, 5⟩ : FrequentPlace) ∈ frequent_places_of [] none none 3 ↔
      ∃ a ∈ (place_visits (filterByDates [] none none)).map Prod.snd,
        (3 : Int) ≤ (a.count : Int) ∧ mkFrequentPlace a = ⟨"Home", 1, 2, 5⟩) :=
  ⟨rfl, (claim_C10 [] none none 3).1 rfl, (claim_C10 [] none none 3).2 ⟨"Home", 1, 2, 5⟩⟩

/-- A concrete agent state used by the witness for claim C7. -/
def agent0 : MapAgent Unit := ⟨(), some "gpt-4o", [Turn.user "x"], true⟩

/-- Witness for claim C7 at a concrete agent with a nonempty history. -/
theorem claim_C7_witness :
    (reset_conversation agent0).conversation_history = [] ∧
    Turn.user "x" ∉ (reset_conversation agent0).conversation_history ∧
    (reset_conversation agent0).client = agent0.client ∧
    (reset_conversation agent0).model = agent0.model ∧
    (reset_conversation agent0).verbose = agent0.verbose :=
  ⟨(claim_C7 agent0).1, (claim_C7 agent0).2.1 (Turn.user "x"),
   (claim_C7 agent0).2.2.1, (claim_C7 agent0).2.2.2.1, (claim_C7 agent0).2.2.2.2⟩
